import Mathlib

/-!
Verification development for the sms-keenetic-gateway repository.

The definitions below are a shallow embedding of the Python sources:
`keenetic_client.py` (class KeeneticClient), `support.py`
(retrieve_all_sms) and `mqtt_publisher.py` (DeviceConnectivityTracker).
Decoded JSON values are modelled by the inductive `Json` type; Python
dicts become ordered association lists (Python dicts preserve insertion
order); HTTP transport outcomes are modelled by `Except KError Json`
values, and the stream of HTTP status codes returned by the router by a
function `Nat → Nat` indexed by attempt number.
-/

/-- A decoded JSON tree, as handed around by the Python client.
Python dicts are ordered association lists; numbers are restricted to
integers, which is all the client ever inspects. `null` stands both for
JSON null and for Python `None` (as produced by `dict.get` misses). -/
inductive Json where
  | null : Json
  | bool : Bool → Json
  | num : Int → Json
  | str : String → Json
  | arr : List Json → Json
  | obj : List (String × Json) → Json

/-- The exception taxonomy of keenetic_client.py: KeeneticAuthError,
KeeneticConnectionError and KeeneticSMSError, each carrying its message. -/
inductive KError where
  | authError : String → KError
  | connError : String → KError
  | smsError : String → KError

/-- The message text carried by a KError (Python `str(e)`). -/
def KError.msg : KError → String
  | KError.authError m => m
  | KError.connError m => m
  | KError.smsError m => m

/-- Python `d[k]` / `k in d` lookup on an ordered dict: first binding wins
(Python dicts cannot hold duplicate keys, so our association lists are
assumed duplicate-free where it matters). -/
def pyLookup : List (String × Json) → String → Option Json
  | [], _ => none
  | (k, v) :: rest, key => if k = key then some v else pyLookup rest key

/-- Python `d.get(k, dflt)`. -/
def pyGet (kvs : List (String × Json)) (key : String) (dflt : Json) : Json :=
  (pyLookup kvs key).getD dflt

/-- Python truthiness of a decoded JSON value (`if x:`): None, False, 0,
empty string, empty list and empty dict are falsy. -/
def Json.truthy : Json → Bool
  | Json.null => false
  | Json.bool b => b
  | Json.num n => n != 0
  | Json.str s => s != ""
  | Json.arr xs => !xs.isEmpty
  | Json.obj kvs => !kvs.isEmpty

/-- Python `a or b` on decoded JSON values. -/
def pyOr (a b : Json) : Json :=
  if a.truthy then a else b

/-- Python `d[k] = v` on an ordered dict: overwrite in place if the key
exists (keeping its position), else append a new binding at the end. -/
def objSet (kvs : List (String × Json)) (key : String) (v : Json) : List (String × Json) :=
  if kvs.any (fun p => p.1 = key) then
    kvs.map (fun p => if p.1 = key then (key, v) else p)
  else
    kvs ++ [(key, v)]

/-- Python `str(x)` on the scalar JSON values the client feeds to it
(identifiers coming out of `sms.get('id') or sms.get('index')`). The
composite cases never arise in the delete path and get a placeholder. -/
def pyStr : Json → String
  | Json.null => "None"
  | Json.bool b => if b then "True" else "False"
  | Json.num n => toString n
  | Json.str s => s
  | Json.arr _ => "<list>"
  | Json.obj _ => "<dict>"

/-- Python `str.capitalize()`: first character upper-cased, the rest
lower-cased (used by retrieve_all_sms on unrecognized status strings). -/
def pyCapitalize (s : String) : String :=
  match s.data with
  | [] => ""
  | c :: cs => String.mk (c.toUpper :: cs.map Char.toLower)

/-- keenetic_client.py lines 244-262 (sms-keenetic-gateway version), the
slot-keyed branch of get_all_sms: iterate over the `messages` dict,
inject each slot key into its message dict as the `id` field, and skip
entries whose value is not a dict. -/
def parseSlotMessages : List (String × Json) → List Json
  | [] => []
  | (msg_id, msg_content) :: rest =>
    match msg_content with
    | Json.obj ckvs => Json.obj (objSet ckvs "id" (Json.str msg_id)) :: parseSlotMessages rest
    | _ => parseSlotMessages rest

/-- keenetic_client.py lines 228-264 (sms-keenetic-gateway version): the
pure normalization step of KeeneticClient.get_all_sms, applied to the
decoded JSON `result` returned by send_command. Mirrors the source's
nested isinstance checks; the metadata capture loop (`*-slots` and
`*-count` keys) does not affect the returned messages and is modelled
separately. The `sms` key is only followed when its value is a dict
containing `list` (the source's `"list" in response_data["sms"]` check,
which for the non-dict values that actually occur is false or raises and
yields `[]` through the enclosing handler). -/
def normalizeSmsListResult (result : Json) : List Json :=
  match result with
  | Json.arr (response_data :: _) =>
    let sms_data : Option Json :=
      match response_data with
      | Json.obj kvs =>
        match pyLookup kvs "sms" with
        | some (Json.obj skvs) =>
          match pyLookup skvs "list" with
          | some l => some l
          | none => if (pyLookup kvs "messages").isSome then some response_data else none
        | _ => if (pyLookup kvs "messages").isSome then some response_data else none
      | _ => none
    match sms_data with
    | some sd =>
      if sd.truthy then
        match sd with
        | Json.obj sdkvs =>
          match pyLookup sdkvs "messages" with
          | some (Json.obj mkvs) => parseSlotMessages mkvs
          | some (Json.arr ms) => ms
          | _ => []
        | Json.arr ms => ms
        | _ => []
      else []
    | none => []
  | _ => []

/-- keenetic_client.py lines 246-247: the capacity metadata captured into
last_sms_metadata while normalizing a dict-shaped sms list payload. -/
def captureSmsMetadata (sdkvs : List (String × Json)) : List (String × Json) :=
  sdkvs.filter (fun p => p.1.endsWith "-slots" || p.1.endsWith "-count")

/-- keenetic_client.py lines 215-268: KeeneticClient.get_all_sms as a
function of the outcome of its send_command call. The enclosing
`except Exception: return []` turns every transport or auth failure into
an empty list. -/
def get_all_sms (transport : Except KError Json) : List Json :=
  match transport with
  | Except.ok result => normalizeSmsListResult result
  | Except.error _ => []

/-- The canonical record built by support.py's retrieve_all_sms for each
SMS message dict: Date, Number, State, Text, Locations, original_index. -/
structure SmsRecord where
  date : Json
  number : Json
  state : String
  text : Json
  locations : List Json
  original_index : Json


/-- support.py lines 49-61: state mapping for one message. A boolean
`read` field wins; otherwise the `status` string (default "read") is
case-mapped, with unrecognized strings title-cased via `capitalize`.
`none` models the AttributeError Python raises when `status` holds a
non-string value (propagated out of retrieve_all_sms). -/
def smsStateOf (kvs : List (String × Json)) : Option String :=
  match pyLookup kvs "read" with
  | some (Json.bool is_read) => some (if is_read then "Read" else "UnRead")
  | _ =>
    match pyGet kvs "status" (Json.str "read") with
    | Json.str st =>
      some (if st = "unread" then "UnRead" else if st = "read" then "Read" else pyCapitalize st)
    | _ => none

/-- support.py lines 63-71: the record built for one message dict. -/
def retrieve_one (kvs : List (String × Json)) : Option SmsRecord :=
  (smsStateOf kvs).map (fun st =>
    ⟨pyGet kvs "timestamp" (Json.str ""),
     pyOr (pyGet kvs "from" Json.null) (pyGet kvs "number" (Json.str "Unknown")),
     st,
     pyGet kvs "text" (Json.str ""),
     [pyOr (pyGet kvs "id" Json.null) (pyGet kvs "index" Json.null)],
     pyOr (pyGet kvs "id" Json.null) (pyGet kvs "index" Json.null)⟩)

/-- support.py lines 37-78: retrieve_all_sms applied to the raw message
list returned by KeeneticClient.get_all_sms. Non-dict entries are
skipped with a warning; every dict entry yields exactly one record.
`none` models an exception escaping the loop (re-raised by the source's
handler). -/
def retrieve_all_sms : List Json → Option (List SmsRecord)
  | [] => some []
  | sms :: rest =>
    match sms with
    | Json.obj kvs =>
      match retrieve_one kvs, retrieve_all_sms rest with
      | some r, some rs => some (r :: rs)
      | _, _ => none
    | _ => retrieve_all_sms rest

/-- keenetic_client.py lines 193-213: KeeneticClient.send_sms as a
function of the outcome of its send_command call. Only
KeeneticConnectionError is caught and wrapped in KeeneticSMSError; a
KeeneticAuthError propagates unchanged. -/
def send_sms (transport : Except KError Json) : Except KError Bool :=
  match transport with
  | Except.ok _ => Except.ok true
  | Except.error (KError.connError m) =>
    Except.error (KError.smsError ("Failed to send SMS: " ++ m))
  | Except.error e => Except.error e

/-- keenetic_client.py lines 269-289: KeeneticClient.delete_sms as a
function of its send_command outcome; every exception is wrapped in
KeeneticSMSError. -/
def delete_sms (transport : Except KError Json) : Except KError Bool :=
  match transport with
  | Except.ok _ => Except.ok true
  | Except.error e =>
    Except.error (KError.smsError ("Failed to delete SMS: " ++ e.msg))

/-- keenetic_client.py lines 298-305: the identifier resolution inside
delete_all_sms, for one listed message dict:
`idx = sms.get('id') or sms.get('index')` followed by
`if idx is not None`. A truthy `id` wins; otherwise whatever
`sms.get('index')` yields is used, provided it is not None. -/
def resolveDeleteId (kvs : List (String × Json)) : Option String :=
  let idx := pyOr (pyGet kvs "id" Json.null) (pyGet kvs "index" Json.null)
  match idx with
  | Json.null => none
  | v => some (pyStr v)

/-- The batched delete entries built by delete_all_sms (one
`interface`/`id` pair per resolvable listed message, in list order). -/
def buildDeleteList (iface : String) (msgs : List (List (String × Json))) :
    List (String × String) :=
  msgs.filterMap (fun kvs => (resolveDeleteId kvs).map (fun i => (iface, i)))

/-- The observable outcome of a delete_all_sms call: its result (count
or error) together with the batched delete commands actually issued to
the transport (each element is the delete list of one send_command
call). -/
structure DeleteAllOutcome where
  result : Except KError Nat
  deleteCalls : List (List (String × String))


/-- keenetic_client.py lines 291-323: KeeneticClient.delete_all_sms as a
function of the listed message dicts (the get_all_sms result) and of the
outcome of the single batched delete send_command call. An empty list
and an empty delete list both return 0 with no network call; otherwise
exactly one batched command is issued, and a transport failure is
wrapped in KeeneticSMSError. -/
def delete_all_sms (iface : String) (msgs : List (List (String × Json)))
    (transport : Except KError Json) : DeleteAllOutcome :=
  if msgs.isEmpty then ⟨Except.ok 0, []⟩
  else
    let delete_list := buildDeleteList iface msgs
    if delete_list.isEmpty then ⟨Except.ok 0, []⟩
    else
      match transport with
      | Except.ok _ => ⟨Except.ok delete_list.length, [delete_list]⟩
      | Except.error e =>
        ⟨Except.error (KError.smsError ("Failed to delete all SMS: " ++ e.msg)), [delete_list]⟩

/-- keenetic_client.py lines 352-358: the percent computation of
KeeneticClient.get_signal_quality for an integer rssi reading. The
leading zero test is the source's `if rssi:` truthiness guard (percent
stays 0 when the reading is 0, i.e. absent). -/
def signalPercent (rssi_val : Int) : Int :=
  if rssi_val = 0 then 0
  else if rssi_val ≥ -51 then 100
  else if rssi_val ≤ -113 then 0
  else (rssi_val + 113) * 100 / 62

/-- The observable outcome of one send_command or _rci_request call: the
returned value (or raised exception), the number of HTTP attempts made
against the rci endpoint, and the number of authenticate() invocations
triggered by 401 handling. -/
structure RetryOutcome where
  result : Except KError Json
  attempts : Nat
  reauths : Nat

/-- keenetic_client.py lines 164-186 (sms-keenetic-gateway version): the
request/401-retry core of KeeneticClient.send_command. `statuses i` is
the HTTP status of the i-th POST to the rci endpoint, `auth j` the
result of the j-th authenticate() call, `resp i` the decoded body of the
i-th response. `fuel` renders the retry_auth flag: 1 for the initial
call (retry_auth=True), 0 for the single recursive retry
(retry_auth=False), in which a 401 falls through to the generic non-200
branch and raises KeeneticConnectionError. -/
def send_command_aux (statuses : Nat → Nat) (auth : Nat → Bool) (resp : Nat → Json) :
    Nat → Nat → Nat → RetryOutcome
  | fuel, i, j =>
    if statuses i = 401 then
      match fuel with
      | Nat.succ f =>
        if auth j then send_command_aux statuses auth resp f (i + 1) (j + 1)
        else ⟨Except.error (KError.authError "Re-authentication failed"), i + 1, j + 1⟩
      | 0 =>
        ⟨Except.error (KError.connError ("Command Error " ++ toString (statuses i))), i + 1, j⟩
    else if statuses i = 200 then ⟨Except.ok (resp i), i + 1, j⟩
    else ⟨Except.error (KError.connError ("Command Error " ++ toString (statuses i))), i + 1, j⟩

/-- keenetic_client.py lines 154-190: KeeneticClient.send_command with
retry_auth=True, for a client whose session is already marked
authenticated (so _ensure_authenticated is a no-op), assuming every
attempt yields an HTTP response (network-level RequestException paths
are not exercised by the retry-discipline claims). -/
def send_command (statuses : Nat → Nat) (auth : Nat → Bool) (resp : Nat → Json) :
    RetryOutcome :=
  send_command_aux statuses auth resp 1 0 0

/-- keenetic_client.py lines 121-148 (sms-keenetic-gateway version): the
request/401-retry core of KeeneticClient._rci_request, identical in
structure to send_command but raising "API Error" messages. -/
def rci_request_aux (statuses : Nat → Nat) (auth : Nat → Bool) (resp : Nat → Json) :
    Nat → Nat → Nat → RetryOutcome
  | fuel, i, j =>
    if statuses i = 401 then
      match fuel with
      | Nat.succ f =>
        if auth j then rci_request_aux statuses auth resp f (i + 1) (j + 1)
        else ⟨Except.error (KError.authError "Re-authentication failed"), i + 1, j + 1⟩
      | 0 =>
        ⟨Except.error (KError.connError ("API Error " ++ toString (statuses i))), i + 1, j⟩
    else if statuses i = 200 then ⟨Except.ok (resp i), i + 1, j⟩
    else ⟨Except.error (KError.connError ("API Error " ++ toString (statuses i))), i + 1, j⟩

/-- keenetic_client.py lines 115-152: KeeneticClient._rci_request with
retry_auth=True for an already-authenticated client. -/
def rci_request (statuses : Nat → Nat) (auth : Nat → Bool) (resp : Nat → Json) :
    RetryOutcome :=
  rci_request_aux statuses auth resp 1 0 0

/-- mqtt_publisher.py lines 72-101: the state of DeviceConnectivityTracker.
Wall-clock time is abstracted to a Nat supplied by the caller of
record_success. -/
structure DeviceConnectivityTracker where
  last_success_time : Option Nat
  consecutive_failures : Nat
  last_error : Option String
  offline_timeout : Nat
  total_operations : Nat
  successful_operations : Nat
  initial_check_done : Bool

/-- mqtt_publisher.py lines 75-82: DeviceConnectivityTracker.__init__. -/
def DeviceConnectivityTracker.init (offline_timeout_seconds : Nat) :
    DeviceConnectivityTracker :=
  ⟨none, 0, none, offline_timeout_seconds, 0, 0, false⟩

/-- mqtt_publisher.py lines 84-95: DeviceConnectivityTracker.record_success
(`now` stands for time.time()). -/
def DeviceConnectivityTracker.record_success (t : DeviceConnectivityTracker) (now : Nat) :
    DeviceConnectivityTracker :=
  ⟨some now, 0, none, t.offline_timeout,
   t.total_operations + 1, t.successful_operations + 1, true⟩

/-- mqtt_publisher.py lines 97-101: DeviceConnectivityTracker.record_failure.
A falsy error_message (None or the empty string) falls back to
"Communication failed". -/
def DeviceConnectivityTracker.record_failure (t : DeviceConnectivityTracker)
    (error_message : Option String) : DeviceConnectivityTracker :=
  let msg := match error_message with
    | some s => if s = "" then "Communication failed" else s
    | none => "Communication failed"
  ⟨t.last_success_time, t.consecutive_failures + 1, some msg, t.offline_timeout,
   t.total_operations + 1, t.successful_operations, t.initial_check_done⟩

/-- One call applied to a DeviceConnectivityTracker. -/
inductive TrackerEvent where
  | success : Nat → TrackerEvent
  | failure : Option String → TrackerEvent

/-- Apply one record_success / record_failure call. -/
def applyTrackerEvent (t : DeviceConnectivityTracker) : TrackerEvent →
    DeviceConnectivityTracker
  | TrackerEvent.success now => t.record_success now
  | TrackerEvent.failure m => t.record_failure m

/-- Apply a sequence of record_success / record_failure calls in order. -/
def runTrackerEvents (t : DeviceConnectivityTracker) (evs : List TrackerEvent) :
    DeviceConnectivityTracker :=
  evs.foldl applyTrackerEvent t

/-- keenetic_client.py (repository root variant) lines 80-87: the digest
submitted as the `password` field of the login POST by
KeeneticClient.authenticate under digest Variant A. The SHA-256 hex
digest over UTF-8 is the external hashlib primitive, taken as an
abstract function `sha256hex`; the repository code contributes the
composition and concatenation. -/
def authenticateA_submitted_password (sha256hex : String → String)
    (challenge password : String) : String :=
  let password_hash := sha256hex password
  let auth_string := challenge ++ password_hash
  sha256hex auth_string

/-- keenetic_client.py (sms-keenetic-gateway version) lines 78-90: the
digest submitted as the `password` field of the login POST by
KeeneticClient.authenticate under digest Variant B, with hashlib's
SHA-256 and MD5 hex digests abstract. -/
def authenticateB_submitted_password (sha256hex md5hex : String → String)
    (challenge realm username password : String) : String :=
  let md5_str := username ++ ":" ++ realm ++ ":" ++ password
  let md5_hash := md5hex md5_str
  let auth_str := challenge ++ md5_hash
  sha256hex auth_str

/-- Modelled from the spec: the Variant A digest formula
`SHA256(nonce || SHA256(password))` as the claim words it. -/
def specDigestVariantA (sha256hex : String → String) (nonce password : String) : String :=
  sha256hex (nonce ++ sha256hex password)

/-- Modelled from the spec: the Variant B digest formula
SHA256 of nonce followed by the MD5 hex digest of
`username:realm:password`, as the claim words it. -/
def specDigestVariantB (sha256hex md5hex : String → String)
    (nonce realm username password : String) : String :=
  sha256hex (nonce ++ md5hex (username ++ ":" ++ realm ++ ":" ++ password))

/-- Whether a decoded JSON value is a dict (Python `isinstance(x, dict)`). -/
def Json.isObj : Json → Bool
  | Json.obj _ => true
  | _ => false

/-! Helper lemmas shared by the claim theorems. -/

/-- The length of a filterMap equals the count of inputs it keeps. -/
theorem length_filterMap_eq_countP {α β : Type} (f : α → Option β) (l : List α) :
    (l.filterMap f).length = l.countP (fun a => (f a).isSome) := by
  induction l with
  | nil => rfl
  | cons a l ih =>
    cases h : f a <;> simp [List.filterMap_cons, h, List.countP_cons, ih]

/-- The batched delete list has one entry per resolvable listed message. -/
theorem buildDeleteList_length (iface : String) (msgs : List (List (String × Json))) :
    (buildDeleteList iface msgs).length
      = msgs.countP (fun kvs => (resolveDeleteId kvs).isSome) := by
  rw [buildDeleteList, length_filterMap_eq_countP]
  congr 1
  funext kvs
  cases resolveDeleteId kvs <;> rfl

/-- The slot-key injection loop of get_all_sms maps a dict of message
dicts to one record per slot, in order. -/
theorem parseSlotMessages_map (pairs : List (String × List (String × Json))) :
    parseSlotMessages (pairs.map (fun p => (p.1, Json.obj p.2)))
      = pairs.map (fun p => Json.obj (objSet p.2 "id" (Json.str p.1))) := by
  induction pairs with
  | nil => rfl
  | cons p rest ih => simp [parseSlotMessages, ih]

/-- The tracker's success count never exceeds its operation count,
starting from any state already satisfying that bound. -/
theorem runTrackerEvents_le (evs : List TrackerEvent) :
    ∀ t : DeviceConnectivityTracker,
      t.successful_operations ≤ t.total_operations →
      (runTrackerEvents t evs).successful_operations
        ≤ (runTrackerEvents t evs).total_operations := by
  induction evs with
  | nil => exact fun t h => h
  | cons ev rest ih =>
    intro t h
    refine ih (applyTrackerEvent t ev) ?_
    cases ev with
    | success now =>
      simp [applyTrackerEvent, DeviceConnectivityTracker.record_success]
      omega
    | failure m =>
      simp [applyTrackerEvent, DeviceConnectivityTracker.record_failure]
      omega

/-! Claim theorems. -/

/-- C2: for every challenge nonce and password, authenticate under digest
Variant A submits exactly SHA256 of the nonce followed by the SHA-256
hex digest of the password; for every nonce, realm, username and
password, authenticate under digest Variant B submits exactly SHA256 of
the nonce followed by the MD5 hex digest of username:realm:password
(hex digests over UTF-8 abstracted as the functions sha256hex/md5hex). -/
theorem authenticate_digest_variants_match_spec
    (sha256hex md5hex : String → String)
    (challenge realm username password : String) :
    authenticateA_submitted_password sha256hex challenge password
        = specDigestVariantA sha256hex challenge password
    ∧ authenticateB_submitted_password sha256hex md5hex challenge realm username password
        = specDigestVariantB sha256hex md5hex challenge realm username password :=
  ⟨rfl, rfl⟩

/-- C6: listing against the response wrapping one slot-keyed message
nv-1 with number "+1000", text "hi" and status "unread" yields exactly
one canonical record whose injected id is "nv-1", number "+1000", text
"hi" and state "UnRead"; and a boolean `read` field takes priority over
the `status` string when both are present. -/
theorem listSms_end_to_end :
    retrieve_all_sms (get_all_sms (Except.ok (Json.arr [Json.obj [("sms", Json.obj
        [("list", Json.obj [("messages", Json.obj [("nv-1", Json.obj
          [("number", Json.str "+1000"), ("text", Json.str "hi"),
           ("status", Json.str "unread")])])])])]])))
      = some [⟨Json.str "", Json.str "+1000", "UnRead", Json.str "hi",
              [Json.str "nv-1"], Json.str "nv-1"⟩]
    ∧ smsStateOf [("read", Json.bool true), ("status", Json.str "unread")] = some "Read"
    ∧ smsStateOf [("read", Json.bool false), ("status", Json.str "read")] = some "UnRead" :=
  ⟨rfl, rfl, rfl⟩

/-- C5 counterexample: a transport failure during the explicit list
operation does not propagate: get_all_sms returns the empty sequence,
exactly as it does when the router reports no messages, instead of
raising. -/
theorem get_all_sms_swallows_transport_failure :
    get_all_sms (Except.error (KError.connError "Connection failed: boom")) = [] :=
  rfl

/-- C5 amended: send_sms and delete_sms propagate every transport or
authentication failure to the caller (send_sms wraps connection errors
in KeeneticSMSError and passes auth errors through unchanged; delete_sms
wraps every error), while get_all_sms never raises: on any failure it
returns the empty sequence, indistinguishable from a router response
carrying no messages. -/
theorem explicit_ops_failure_policy (m : String) (e : KError) :
    send_sms (Except.error (KError.connError m))
        = Except.error (KError.smsError ("Failed to send SMS: " ++ m))
    ∧ send_sms (Except.error (KError.authError m)) = Except.error (KError.authError m)
    ∧ delete_sms (Except.error e)
        = Except.error (KError.smsError ("Failed to delete SMS: " ++ e.msg))
    ∧ get_all_sms (Except.error e) = []
    ∧ get_all_sms (Except.ok (Json.arr [Json.obj [("sms", Json.obj
        [("list", Json.obj [("messages", Json.arr [])])])]])) = [] :=
  ⟨rfl, rfl, rfl, rfl, rfl⟩

/-- C7 counterexample: the raw reading 0 lies above -51, so the claim
demands a clamped result of 100, but the code's truthiness guard
(`if rssi:`) leaves the percentage at 0 for a zero reading. -/
theorem signalPercent_zero_counterexample :
    signalPercent 0 = 0 ∧ (-51 : Int) < 0 ∧ signalPercent 0 ≠ 100 := by
  refine ⟨rfl, by norm_num, ?_⟩
  intro h
  simp [signalPercent] at h

/-- C7 amended: the mapping sends -51 to 100, -113 to 0 and -82 to 50,
and clamps every nonzero reading above -51 to 100 and every reading
below -113 to 0; a reading of exactly 0 is treated as an absent
measurement and yields 0 rather than the clamped 100. -/
theorem signal_mapping_clamped :
    signalPercent (-51) = 100 ∧ signalPercent (-113) = 0 ∧ signalPercent (-82) = 50
    ∧ (∀ r : Int, r ≠ 0 → -51 < r → signalPercent r = 100)
    ∧ (∀ r : Int, r < -113 → signalPercent r = 0) := by
  refine ⟨rfl, rfl, rfl, ?_, ?_⟩
  · intro r h0 hr
    rw [signalPercent, if_neg h0, if_pos (by omega : r ≥ -51)]
  · intro r hr
    rw [signalPercent, if_neg (by omega : ¬ r = 0),
      if_neg (by omega : ¬ r ≥ -51), if_pos (by omega : r ≤ -113)]

/-- C7 witness: the clamping branches of signal_mapping_clamped at the
concrete readings 7 and -200. -/
theorem signal_mapping_clamped_witness :
    signalPercent 7 = 100 ∧ signalPercent (-200) = 0 :=
  ⟨signal_mapping_clamped.2.2.2.1 7 (by norm_num) (by norm_num),
   signal_mapping_clamped.2.2.2.2 (-200) (by norm_num)⟩

/-- C9: under every sequence of record_success/record_failure calls from
a fresh DeviceConnectivityTracker the success count stays within the
operation count, one call never decreases either counter, and
record_success always resets consecutive_failures to 0 and clears
last_error. -/
theorem tracker_invariants (timeout : Nat) (evs : List TrackerEvent)
    (t : DeviceConnectivityTracker) (ev : TrackerEvent) (now : Nat) :
    (runTrackerEvents (DeviceConnectivityTracker.init timeout) evs).successful_operations
        ≤ (runTrackerEvents (DeviceConnectivityTracker.init timeout) evs).total_operations
    ∧ t.total_operations ≤ (applyTrackerEvent t ev).total_operations
    ∧ t.successful_operations ≤ (applyTrackerEvent t ev).successful_operations
    ∧ (t.record_success now).consecutive_failures = 0
    ∧ (t.record_success now).last_error = none := by
  refine ⟨runTrackerEvents_le evs _ (Nat.le_refl 0), ?_, ?_, rfl, rfl⟩
  · cases ev <;>
      simp [applyTrackerEvent, DeviceConnectivityTracker.record_success,
        DeviceConnectivityTracker.record_failure]
  · cases ev <;>
      simp [applyTrackerEvent, DeviceConnectivityTracker.record_success,
        DeviceConnectivityTracker.record_failure]

/-- retrieve_all_sms yields exactly one record per dict entry of its
input (skipping only non-dict entries), whenever it completes without
raising. -/
theorem retrieve_all_sms_length (xs : List Json) :
    ∀ rs, retrieve_all_sms xs = some rs → rs.length = xs.countP Json.isObj := by
  induction xs with
  | nil =>
    intro rs h
    simp only [retrieve_all_sms, Option.some.injEq] at h
    subst h
    rfl
  | cons x rest ih =>
    intro rs h
    cases x with
    | obj kvs =>
      simp only [retrieve_all_sms] at h
      cases h1 : retrieve_one kvs with
      | none => rw [h1] at h; cases h
      | some r =>
        rw [h1] at h
        cases h2 : retrieve_all_sms rest with
        | none => rw [h2] at h; cases h
        | some rs2 =>
          rw [h2] at h
          simp only [Option.some.injEq] at h
          subst h
          simp [List.countP_cons, Json.isObj, ih rs2 h2]
    | null => simpa [retrieve_all_sms, List.countP_cons, Json.isObj] using ih rs h
    | bool b => simpa [retrieve_all_sms, List.countP_cons, Json.isObj] using ih rs h
    | num n => simpa [retrieve_all_sms, List.countP_cons, Json.isObj] using ih rs h
    | str s => simpa [retrieve_all_sms, List.countP_cons, Json.isObj] using ih rs h
    | arr a => simpa [retrieve_all_sms, List.countP_cons, Json.isObj] using ih rs h

/-- C4 counterexample: a message dict carrying none of slot key, `id`
and `index` is not dropped by normalization: it yields a full record
whose identifier slots hold None, so the output is one record, not
zero, and its id is empty. -/
theorem identifierless_message_not_dropped :
    retrieve_all_sms [Json.obj [("text", Json.str "x")]]
      = some [⟨Json.str "", Json.str "Unknown", "Read", Json.str "x",
              [Json.null], Json.null⟩] :=
  rfl

/-- C4 amended: normalization drops only non-dict entries (with a log
warning and no dropped-record counter), so the output length equals the
number of dict entries in the input; a message dict lacking both `id`
and `index` is retained, with None recorded as its identifier, so a
record of a successful list operation can carry an empty id. -/
theorem retrieve_all_sms_no_identifier_drop (xs : List Json) (rs : List SmsRecord)
    (kvs : List (String × Json)) (r : SmsRecord) :
    (retrieve_all_sms xs = some rs → rs.length = xs.countP Json.isObj)
    ∧ (pyLookup kvs "id" = none → pyLookup kvs "index" = none →
        retrieve_one kvs = some r →
        r.original_index = Json.null ∧ r.locations = [Json.null]) := by
  refine ⟨retrieve_all_sms_length xs rs, ?_⟩
  intro hid hidx h
  simp only [retrieve_one, Option.map_eq_some'] at h
  obtain ⟨st, _, hrec⟩ := h
  subst hrec
  simp [pyGet, pyOr, hid, hidx, Json.truthy]

/-- C4 witness: retrieve_all_sms_no_identifier_drop at the concrete
one-message input lacking id and index. -/
theorem retrieve_all_sms_no_identifier_drop_witness :
    (1 : Nat) = ([Json.obj [("text", Json.str "x")]].countP Json.isObj)
    ∧ (⟨Json.str "", Json.str "Unknown", "Read", Json.str "x",
        [Json.null], Json.null⟩ : SmsRecord).original_index = Json.null :=
  ⟨(retrieve_all_sms_no_identifier_drop [Json.obj [("text", Json.str "x")]]
      [⟨Json.str "", Json.str "Unknown", "Read", Json.str "x", [Json.null], Json.null⟩]
      [("text", Json.str "x")]
      ⟨Json.str "", Json.str "Unknown", "Read", Json.str "x", [Json.null], Json.null⟩).1 rfl,
   ((retrieve_all_sms_no_identifier_drop [Json.obj [("text", Json.str "x")]]
      [⟨Json.str "", Json.str "Unknown", "Read", Json.str "x", [Json.null], Json.null⟩]
      [("text", Json.str "x")]
      ⟨Json.str "", Json.str "Unknown", "Read", Json.str "x", [Json.null], Json.null⟩).2
      rfl rfl rfl).1⟩

/-- C3 counterexample: the same logical message normalizes to one record
under the top-level `messages` shape but to the empty sequence under the
documented flat-first-element shape, so the three documented shapes do
not all yield the same records. -/
theorem normalize_flat_first_element_shape_empty :
    normalizeSmsListResult (Json.arr [Json.arr
        [Json.obj [("id", Json.str "a"), ("text", Json.str "t")]]]) = []
    ∧ normalizeSmsListResult (Json.arr [Json.obj [("messages", Json.arr
        [Json.obj [("id", Json.str "a"), ("text", Json.str "t")]])]])
      = [Json.obj [("id", Json.str "a"), ("text", Json.str "t")]] :=
  ⟨rfl, rfl⟩

/-- C3 amended: normalization is shape-independent across the shapes the
code actually recognizes: for any message list, the nestings
sms.list=sequence, sms.list.messages=sequence and top-level messages all
yield exactly that list, and a slot-keyed mapping under a `messages` key
yields one record per slot with the slot key injected as its id; but the
two remaining documented shapes — a first element that is itself a flat
sequence, and an sms.list mapping that is slot-keyed with no `messages`
key — yield the empty sequence instead. -/
theorem normalize_shape_handling (ms : List Json)
    (pairs : List (String × List (String × Json)))
    (direct : List (String × Json)) :
    normalizeSmsListResult (Json.arr [Json.obj [("sms", Json.obj
        [("list", Json.arr ms)])]]) = ms
    ∧ normalizeSmsListResult (Json.arr [Json.obj [("sms", Json.obj
        [("list", Json.obj [("messages", Json.arr ms)])])]]) = ms
    ∧ normalizeSmsListResult (Json.arr [Json.obj [("messages", Json.arr ms)]]) = ms
    ∧ normalizeSmsListResult (Json.arr [Json.obj [("sms", Json.obj
        [("list", Json.obj [("messages",
          Json.obj (pairs.map (fun p => (p.1, Json.obj p.2))))])])]])
        = pairs.map (fun p => Json.obj (objSet p.2 "id" (Json.str p.1)))
    ∧ normalizeSmsListResult (Json.arr [Json.arr ms]) = []
    ∧ (pyLookup direct "messages" = none →
        normalizeSmsListResult (Json.arr [Json.obj [("sms", Json.obj
          [("list", Json.obj direct)])]]) = []) := by
  refine ⟨?_, rfl, rfl, parseSlotMessages_map pairs, rfl, ?_⟩
  · cases ms <;> rfl
  · intro h
    cases direct with
    | nil => rfl
    | cons p rest =>
      show (match pyLookup (p :: rest) "messages" with
        | some (Json.obj mkvs) => parseSlotMessages mkvs
        | some (Json.arr ms2) => ms2
        | _ => ([] : List Json)) = []
      rw [h]

/-- C3 witness: normalize_shape_handling at a concrete message list and
a concrete slot-keyed mapping without a messages key. -/
theorem normalize_shape_handling_witness :
    normalizeSmsListResult (Json.arr [Json.obj [("sms", Json.obj
        [("list", Json.obj [("nv-7", Json.obj [("text", Json.str "t")])])])]]) = [] :=
  (normalize_shape_handling [] [] [("nv-7", Json.obj [("text", Json.str "t")])]).2.2.2.2.2 rfl

/-- C10 counterexample: a listed message carrying an `id` field whose
value is None is excluded from the batched delete, so delete_all_sms
returns 0 — not the number of messages carrying an `id` or `index`
field, which is 1 here. -/
theorem delete_all_sms_id_field_null_counterexample :
    (delete_all_sms "UsbLte0" [[("id", Json.null)]] (Except.ok Json.null)).result
      = Except.ok 0
    ∧ (delete_all_sms "UsbLte0" [[("id", Json.null)]] (Except.ok Json.null)).deleteCalls = []
    ∧ pyLookup [("id", Json.null)] "id" = some Json.null :=
  ⟨rfl, rfl, rfl⟩

/-- C10 amended: when the list and the batched delete both succeed,
delete_all_sms returns exactly the number of listed messages with a
resolvable identifier — a truthy `id` value or, failing that, a
non-None `index` lookup — silently excluding the rest (so the count can
be strictly below the number of messages listed), and it issues no
delete call at all when no listed message resolves. -/
theorem delete_all_sms_count (iface : String)
    (msgs : List (List (String × Json))) (j : Json) :
    (delete_all_sms iface msgs (Except.ok j)).result
        = Except.ok (msgs.countP (fun kvs => (resolveDeleteId kvs).isSome))
    ∧ (delete_all_sms iface msgs (Except.ok j)).deleteCalls
        = (if buildDeleteList iface msgs = [] then [] else [buildDeleteList iface msgs]) := by
  have hlen := buildDeleteList_length iface msgs
  cases msgs with
  | nil => exact ⟨rfl, rfl⟩
  | cons m rest =>
    rw [delete_all_sms]
    simp only [List.isEmpty_cons, Bool.false_eq_true, if_false]
    by_cases hdl : buildDeleteList iface (m :: rest) = []
    · rw [hdl] at hlen
      simp [hdl, ← hlen]
    · simp [hdl, List.isEmpty_iff, ← hlen]

/-- C8 counterexample: a non-empty listed message set with no resolvable
identifier makes delete_all_sms return 0 and issue no batched delete
command, contradicting the claim that a non-empty list always yields
exactly one batched delete call. -/
theorem delete_all_sms_no_resolvable_counterexample :
    (delete_all_sms "UsbLte0" [[("text", Json.str "x")]] (Except.ok Json.null)).deleteCalls = []
    ∧ (delete_all_sms "UsbLte0" [[("text", Json.str "x")]] (Except.ok Json.null)).result
        = Except.ok 0
    ∧ ([[("text", Json.str "x")]] : List (List (String × Json))).length = 1 :=
  ⟨rfl, rfl, rfl⟩

/-- C8 amended: on an empty list delete_all_sms returns 0 without error
and issues no network delete call; when the list is non-empty and at
least one listed message has a resolvable identifier it issues exactly
one batched delete command covering every resolvable identifier in a
single transport call (returning the batch size on success); a
non-empty list with no resolvable identifier likewise returns 0 with no
delete call. -/
theorem delete_all_sms_batching (iface : String)
    (msgs : List (List (String × Json))) (t : Except KError Json) (j : Json) :
    delete_all_sms iface [] t = ⟨Except.ok 0, []⟩
    ∧ (buildDeleteList iface msgs = [] → delete_all_sms iface msgs t = ⟨Except.ok 0, []⟩)
    ∧ (buildDeleteList iface msgs ≠ [] →
        (delete_all_sms iface msgs t).deleteCalls = [buildDeleteList iface msgs]
        ∧ delete_all_sms iface msgs (Except.ok j)
            = ⟨Except.ok (buildDeleteList iface msgs).length, [buildDeleteList iface msgs]⟩) := by
  refine ⟨rfl, ?_, ?_⟩
  · intro hdl
    cases msgs with
    | nil => rfl
    | cons m rest =>
      rw [delete_all_sms]
      simp [hdl]
  · intro hdl
    cases msgs with
    | nil => exact absurd rfl hdl
    | cons m rest =>
      rw [delete_all_sms, delete_all_sms]
      simp only [List.isEmpty_cons, Bool.false_eq_true, if_false]
      cases t <;> simp [hdl, List.isEmpty_iff]

/-- C8 witness: delete_all_sms_batching at a concrete singleton list
with a resolvable id and a successful transport. -/
theorem delete_all_sms_batching_witness :
    delete_all_sms "UsbLte0" [[("id", Json.str "nv-1")]] (Except.ok Json.null)
      = ⟨Except.ok 1, [[("UsbLte0", "nv-1")]]⟩ :=
  ((delete_all_sms_batching "UsbLte0" [[("id", Json.str "nv-1")]]
      (Except.ok Json.null) Json.null).2.2 (by simp [buildDeleteList, resolveDeleteId,
        pyOr, pyGet, pyLookup, Json.truthy, pyStr])).2

/-- C1 counterexample: with the router answering 401 to both the
original call and the retried call (and re-authentication succeeding),
send_command stops after the second attempt but fails with
KeeneticConnectionError "Command Error 401" — the retried call's 401
falls into the generic non-200 branch — not with the
re-authentication-failure KeeneticAuthError the claim requires. -/
theorem send_command_second_401_not_reauth_failed :
    (send_command (fun _ => 401) (fun _ => true) (fun _ => Json.null)).result
        = Except.error (KError.connError "Command Error 401")
    ∧ (send_command (fun _ => 401) (fun _ => true) (fun _ => Json.null)).attempts = 2
    ∧ (send_command (fun _ => 401) (fun _ => true) (fun _ => Json.null)).reauths = 1 :=
  ⟨rfl, rfl, rfl⟩

/-- C1 amended: on both send_command and _rci_request a 401 triggers
exactly one re-authentication and exactly one retry and no third
attempt is ever made (at most two HTTP attempts in every execution);
a second consecutive 401 fails with KeeneticConnectionError
("Command Error 401" / "API Error 401"), while the
re-authentication-failure error KeeneticAuthError
("Re-authentication failed") is raised — without any retry — exactly
when the re-authentication attempt itself fails. -/
theorem retry_discipline (s : Nat → Nat) (a : Nat → Bool) (r : Nat → Json) :
    (send_command s a r).attempts ≤ 2
    ∧ (rci_request s a r).attempts ≤ 2
    ∧ (s 0 = 401 → a 0 = true →
        (send_command s a r).attempts = 2 ∧ (send_command s a r).reauths = 1
        ∧ (s 1 = 200 → (send_command s a r).result = Except.ok (r 1))
        ∧ (s 1 = 401 →
            (send_command s a r).result
              = Except.error (KError.connError "Command Error 401")
            ∧ (rci_request s a r).result
              = Except.error (KError.connError "API Error 401")))
    ∧ (s 0 = 401 → a 0 = false →
        (send_command s a r).result
            = Except.error (KError.authError "Re-authentication failed")
        ∧ (send_command s a r).attempts = 1 ∧ (send_command s a r).reauths = 1
        ∧ (rci_request s a r).result
            = Except.error (KError.authError "Re-authentication failed")) := by
  refine ⟨?_, ?_, ?_, ?_⟩
  · by_cases h0 : s 0 = 401
    · by_cases ha : a 0
      · by_cases h1 : s 1 = 401 <;> by_cases h2 : s 1 = 200 <;>
          simp [send_command, send_command_aux, h0, ha, h1, h2]
      · simp [send_command, send_command_aux, h0, ha]
    · by_cases h2 : s 0 = 200 <;> simp [send_command, send_command_aux, h0, h2]
  · by_cases h0 : s 0 = 401
    · by_cases ha : a 0
      · by_cases h1 : s 1 = 401 <;> by_cases h2 : s 1 = 200 <;>
          simp [rci_request, rci_request_aux, h0, ha, h1, h2]
      · simp [rci_request, rci_request_aux, h0, ha]
    · by_cases h2 : s 0 = 200 <;> simp [rci_request, rci_request_aux, h0, h2]
  · intro h0 ha
    refine ⟨?_, ?_, ?_, ?_⟩
    · simp [send_command, send_command_aux, h0, ha]
      split_ifs <;> rfl
    · simp [send_command, send_command_aux, h0, ha]
      split_ifs <;> rfl
    · intro h1
      simp [send_command, send_command_aux, h0, ha, h1]
    · intro h1
      constructor
      · simp [send_command, send_command_aux, h0, ha, h1]
        rfl
      · simp [rci_request, rci_request_aux, h0, ha, h1]
        rfl
  · intro h0 ha
    refine ⟨?_, ?_, ?_, ?_⟩ <;>
      simp [send_command, send_command_aux, rci_request, rci_request_aux, h0, ha]

/-- C1 witness: retry_discipline at the concrete status streams where
every attempt yields 401, once with re-authentication succeeding and
once with it failing. -/
theorem retry_discipline_witness :
    (send_command (fun _ => 401) (fun _ => true) (fun _ => Json.null)).attempts = 2
    ∧ (rci_request (fun _ => 401) (fun _ => true) (fun _ => Json.null)).result
        = Except.error (KError.connError "API Error 401")
    ∧ (send_command (fun _ => 401) (fun _ => false) (fun _ => Json.null)).result
        = Except.error (KError.authError "Re-authentication failed") :=
  ⟨((retry_discipline (fun _ => 401) (fun _ => true) (fun _ => Json.null)).2.2.1
      rfl rfl).1,
   (((retry_discipline (fun _ => 401) (fun _ => true) (fun _ => Json.null)).2.2.1
      rfl rfl).2.2.2 rfl).2,
   ((retry_discipline (fun _ => 401) (fun _ => false) (fun _ => Json.null)).2.2.2
      rfl rfl).1⟩
